import Mathlib

/-!
# Verification of `app.py` (Strategic Intelligence Unit)

A shallow embedding of the single-file Streamlit program `src/app.py` and
proofs about it.  The program is a linear pipeline: fetch research text from
the Perplexity API, ask Gemini for a structured narrative, parse the reply
with Python `eval`, render a bar chart and a fixed schematic with matplotlib,
and populate a python-docx document that is returned as an in-memory buffer.

Modelling conventions:
* Python strings are Lean `String`s; the regex/`str` operations used by the
  code (`re.sub`, `re.findall`, `str.replace`, `str.strip`, `str.split`) are
  re-implemented on `List Char` with Python's documented semantics
  (left-to-right, non-overlapping matches; `.` does not match a newline).
  Scanners that are not structurally recursive take an explicit fuel
  argument equal to the input length, so that every definition is
  executable and reducible by `decide`/`rfl`.
* Python runtime values reaching dynamic code (`eval` results, dict
  subscripts) are modelled by the inductive `PyValue`; an operation that can
  raise returns an `Option`, with `none` standing for an uncaught exception.
* The two network calls and `eval` are oracles passed as function arguments:
  any function of the right type is a possible behaviour of the model /
  search API / evaluator.
* Numeric literals flowing through the chart (`float(x)`, bar heights) are
  modelled as exact rationals; binary floating-point rounding is immaterial
  to every claim proved here, which only moves these values around.
* matplotlib's `pyplot` keeps a process-global registry of open figures;
  `plt.subplots()` registers a new figure and the program never calls
  `plt.close`.  This registry is modelled by `RunState.openFigures`,
  threaded through the functions that call `plt.subplots`.
-/

/-- A Python runtime value, as far as this program can observe one:
strings, integers, `None`, lists and dicts (association lists; a lookup
takes the last binding, as a Python dict literal with duplicate keys would). -/
inductive PyValue where
  | str (s : String)
  | int (n : Int)
  | none
  | list (xs : List PyValue)
  | dict (kvs : List (String × PyValue))

/-- Python truthiness for the values of `PyValue` (`if not text: ...`). -/
def pyFalsy : PyValue → Bool
  | .str s => s == ""
  | .int n => n == 0
  | .none => true
  | .list xs => xs.isEmpty
  | .dict kvs => kvs.isEmpty

/-- `v[k]` for a Python value: `some` result on a dict that has the key
(last binding wins), `none` when the subscript raises (`KeyError` /
`TypeError`). -/
def getField (v : PyValue) (k : String) : Option PyValue :=
  match v with
  | .dict kvs => ((kvs.reverse).find? (fun p => p.1 == k)).map (fun p => p.2)
  | _ => Option.none

/-- The six keys the document compiler reads from the strategy mapping. -/
def strategyKeys : List String :=
  ["title", "executive_summary", "problem_deep_dive", "solution_tech",
   "financial_impact", "roadmap"]

/-- Does `v` carry key `k` with a string value? -/
def isStrField (v : PyValue) (k : String) : Bool :=
  match getField v k with
  | some (.str _) => true
  | _ => false

/-- Is `v` a mapping with all six expected string keys? -/
def hasSixStringKeys (v : PyValue) : Bool :=
  strategyKeys.all (isStrField v)

/-! ## Character-level string utilities (Python `str` / `re` semantics) -/

/-- The whitespace characters Python's `str.strip()` removes (ASCII range). -/
def isPySpace (c : Char) : Bool :=
  c == ' ' || c == '\t' || c == '\n' || c == '\r' || c == '\x0b' || c == '\x0c'

/-- Python `str.strip()` on a character list. -/
def pyStripL (l : List Char) : List Char :=
  ((l.dropWhile isPySpace).reverse.dropWhile isPySpace).reverse

/-- Python `str.strip()`. -/
def pyStripS (s : String) : String :=
  String.mk (pyStripL s.data)

/-- Matching helper for `re.sub(r'\*\*(.*?)\*\*', r'\1', text)`: after an
opening `**`, find the earliest closing `**` (non-greedy `.*?`; `.` does not
match `'\n'`).  Returns the capture and the remainder after the closing
marker, or `none` when no closing `**` occurs before a newline / the end. -/
def findBoldClose (acc : List Char) : List Char → Option (List Char × List Char)
  | '*' :: '*' :: rest => some (acc.reverse, rest)
  | '\n' :: _ => Option.none
  | c :: rest => findBoldClose (c :: acc) rest
  | [] => Option.none

/-- Fuelled scanner for `re.sub(r'\*\*(.*?)\*\*', r'\1', text)`: at each
position try to match; on success emit the capture and continue after the
match, on failure advance one character.  Fuel ≥ input length suffices. -/
def subBoldF : Nat → List Char → List Char
  | 0, l => l
  | _ + 1, [] => []
  | fuel + 1, '*' :: '*' :: rest =>
    match findBoldClose [] rest with
    | some (cap, rest') => cap ++ subBoldF fuel rest'
    | Option.none => '*' :: subBoldF fuel ('*' :: rest)
  | fuel + 1, c :: rest => c :: subBoldF fuel rest

/-- `re.sub(r'\*\*(.*?)\*\*', r'\1', text)` — remove bold markers. -/
def subBold (l : List Char) : List Char :=
  subBoldF l.length l

/-- `re.sub(r'##\s?', '', text)` — drop `##` and one following whitespace. -/
def subHash : List Char → List Char
  | '#' :: '#' :: c :: rest =>
    if isPySpace c then subHash rest else subHash (c :: rest)
  | '#' :: '#' :: [] => []
  | c :: rest => c :: subHash rest
  | [] => []

/-- `re.sub(r'\n\* ', '\n• ', text)` — turn `*` bullets into `•` bullets. -/
def subBullet : List Char → List Char
  | '\n' :: '*' :: ' ' :: rest => '\n' :: '•' :: ' ' :: subBullet rest
  | c :: rest => c :: subBullet rest
  | [] => []

/-- `clean_markdown` on an actual string: the three `re.sub` passes followed
by `str.strip()` (source lines 36–39). -/
def cleanStr (s : String) : String :=
  String.mk (pyStripL (subBullet (subHash (subBold s.data))))

/-- `clean_markdown(text)` on an arbitrary Python value: a falsy argument
(`None`, `''`, `0`, `[]`, `{}`) yields `""`; a string is cleaned; any other
value makes `re.sub` raise `TypeError` (modelled as `none`). -/
def clean_markdown (v : PyValue) : Option String :=
  if pyFalsy v then some "" else
    match v with
    | .str s => some (cleanStr s)
    | _ => Option.none

/-! ## `str.replace` and the markers stripped from the Gemini reply -/

/-- Fuelled Python `str.replace`: replace every non-overlapping occurrence of
`pat` (nonempty) by `repl`, scanning left to right.  Fuel ≥ input length. -/
def charReplaceF (pat repl : List Char) : Nat → List Char → List Char
  | 0, l => l
  | _ + 1, [] => []
  | fuel + 1, c :: rest =>
    if pat.isPrefixOf (c :: rest) then
      repl ++ charReplaceF pat repl fuel ((c :: rest).drop pat.length)
    else
      c :: charReplaceF pat repl fuel rest

/-- Python `s.replace(pat, repl)` for a nonempty pattern. -/
def pyReplace (s pat repl : String) : String :=
  String.mk (charReplaceF pat.data repl.data s.data.length s.data)

/-- `response.text.replace("```json", "").replace("```", "").strip()`
(source line 83). -/
def stripMarkers (t : String) : String :=
  pyStripS (pyReplace (pyReplace t "```json" "") "```" "")

/-! ## Pipeline events

The observable steps of one UI run, used to state the control-flow claims.
An event is recorded when the corresponding piece of work happens; an
uncaught exception aborts the Streamlit run, truncating the event list. -/

/-- One observable step of a UI run. -/
inductive Event where
  | fetchResearch
  | askModel
  | evalParse
  | renderChart
  | renderSchematic
  | populateDoc
  | serializeDoc
deriving DecidableEq, Repr

/-- The full linear pipeline asserted by the spec. -/
def fullSeq : List Event :=
  [Event.fetchResearch, Event.askModel, Event.evalParse, Event.renderChart,
   Event.renderSchematic, Event.populateDoc, Event.serializeDoc]

/-! ## The Hunter: `get_deep_research` (source lines 43–56) -/

/-- A chat message sent to / received from the Perplexity API. -/
structure PplxMessage where
  role : String
  content : String
deriving DecidableEq, Repr

/-- One completion choice of a Perplexity response. -/
structure PplxChoice where
  message : PplxMessage
deriving DecidableEq, Repr

/-- A Perplexity chat-completion response. -/
structure PplxResponse where
  choices : List PplxChoice
deriving DecidableEq, Repr

/-- A chat-completion request (`pplx_client.chat.completions.create`). -/
structure PplxRequest where
  model : String
  messages : List PplxMessage
deriving DecidableEq, Repr

/-- The f-string query of `get_deep_research` (source lines 45–51),
transcribed verbatim with `company` spliced in at its two placeholders. -/
def researchQuery (company : String) : String :=
  "\n    Act as a Forensic Auditor for " ++ company ++ " in 2026.\n    1. FIND THE BLEED: Identify the #1 operational bottleneck costing >$50M.\n    2. GET THE DATA: Provide a CSV-style list of " ++ company ++ "'s Revenue and Net Income for 2022, 2023, 2024, 2025 (Est).\n    3. TECH DEBT: Specific legacy systems (e.g., SAP, Oracle, On-prem) slowing them down.\n    Output strictly factual data. No fluff.\n    "

/-- The single request `get_deep_research` issues (source lines 52–55). -/
def researchRequest (company : String) : PplxRequest :=
  { model := "sonar", messages := [{ role := "user", content := researchQuery company }] }

/-- `get_deep_research(company)`: issue the one request and return
`response.choices[0].message.content`.  The first component is the list of
requests issued (always the singleton); the result is `none` when
`choices[0]` raises `IndexError`. -/
def get_deep_research (company : String) (pplx : PplxRequest → PplxResponse) :
    List PplxRequest × Option String :=
  ([researchRequest company],
    match (pplx (researchRequest company)).choices with
    | [] => Option.none
    | c :: _ => some c.message.content)

/-! ## The Architect: `get_strategic_narrative` (source lines 58–91) -/

/-- The f-string prompt of `get_strategic_narrative` (source lines 61–79),
transcribed verbatim; the doubled braces of the Python f-string render as
single braces (written `\x7b`/`\x7d`). -/
def narrPrompt (company research : String) : String :=
  "\n    You are a Strategy Director (ex-BCG). \n    Research: " ++ research ++ "\n    \n    Write a 6-section Strategy Memo for " ++ company ++ ".\n    RULES: \n    1. NO \"Dear CEO\". Start directly with the strategic thesis.\n    2. NO Markdown formatting (no **, no ##). \n    3. Professional, dense, 'Amazon-memo' style writing.\n    \n    JSON Format:\n    \x7b\n      \"title\": \"The Transformation Thesis\",\n      \"executive_summary\": \"A 200-word high-level abstract. Focus on the 'Why Now'.\",\n      \"problem_deep_dive\": \"Analyze the bottleneck. Use the $ numbers from research.\",\n      \"solution_tech\": \"Define the AI Agent architecture. Be technical (RAG, Vector DBs, Agents).\",\n      \"financial_impact\": \"Projected EBITDA impact or Cost Savings.\",\n      \"roadmap\": \"Q1: Pilot -> Q2: Scale -> Q3: Optimize.\"\n    \x7d\n    "

/-- The hard-coded fallback mapping of the `except:` branch
(source lines 86–91). -/
def fallbackStrategy (company : String) : PyValue :=
  .dict [("title", .str ("Strategic Roadmap: " ++ company)),
         ("executive_summary", .str "Analysis data unavailable. Please retry agent."),
         ("problem_deep_dive", .str "N/A"), ("solution_tech", .str "N/A"),
         ("financial_impact", .str "N/A"), ("roadmap", .str "N/A")]

/-- `get_strategic_narrative(company, research)`.  `gem` is the
`model.generate_content` oracle (`none` = the call raised); `ev` is the
`eval` oracle (`none` = evaluation raised).  The `try`/bare-`except` makes
the function total: any failure returns the fallback mapping.  The first
component lists the steps that ran (`eval` is only reached when the model
call returned text). -/
def get_strategic_narrative (company research : String)
    (gem : String → Option String) (ev : String → Option PyValue) :
    List Event × PyValue :=
  match gem (narrPrompt company research) with
  | Option.none => ([Event.askModel], fallbackStrategy company)
  | some t =>
    ([Event.askModel, Event.evalParse],
      match ev (stripMarkers t) with
      | some v => v
      | Option.none => fallbackStrategy company)

/-- A concrete instance of the `eval` oracle: Python `eval` restricted to
nonnegative decimal integer literals, e.g. `eval("42") = 42`; any other
input raises (`none`). -/
def pyEvalIntLit (s : String) : Option PyValue :=
  if s.data ≠ [] ∧ s.data.all Char.isDigit then
    some (.int ((s.data.foldl (fun a c => a * 10 + (c.toNat - 48)) 0 : Nat) : Int))
  else Option.none

/-! ## Visualization engine: `create_premium_chart` (source lines 95–136) -/

/-- Fuelled scanner for `re.findall(r'202[2-6]', text)`: leftmost
non-overlapping matches; on failure at a position advance one character.
Fuel ≥ input length suffices. -/
def findYearsF : Nat → List Char → List String
  | 0, _ => []
  | _ + 1, [] => []
  | fuel + 1, '2' :: '0' :: '2' :: c :: rest =>
    if '2' ≤ c ∧ c ≤ '6' then String.mk ['2', '0', '2', c] :: findYearsF fuel rest
    else findYearsF fuel ('0' :: '2' :: c :: rest)
  | fuel + 1, _ :: rest => findYearsF fuel rest

/-- `re.findall(r'202[2-6]', text)`. -/
def findYears (l : List Char) : List String :=
  findYearsF l.length l

/-- Is `c` matched by the character class `[\d\.]`? -/
def isAmountChar (c : Char) : Bool :=
  c.isDigit || c == '.'

/-- Fuelled scanner for `re.findall(r'\$([\d\.]+)', text)`: after a `$`,
capture the maximal nonempty run of digits/dots; a `$` with no such run is
not a match.  Fuel ≥ input length suffices. -/
def findAmountsF : Nat → List Char → List String
  | 0, _ => []
  | _ + 1, [] => []
  | fuel + 1, '$' :: rest =>
    let run := rest.takeWhile isAmountChar
    if run.isEmpty then findAmountsF fuel rest
    else String.mk run :: findAmountsF fuel (rest.drop run.length)
  | fuel + 1, _ :: rest => findAmountsF fuel rest

/-- `re.findall(r'\$([\d\.]+)', text)` — the captured groups. -/
def findAmounts (l : List Char) : List String :=
  findAmountsF l.length l

/-- Split a character list at every `'.'`. -/
def splitDot : List Char → List (List Char)
  | [] => [[]]
  | '.' :: rest => [] :: splitDot rest
  | c :: rest =>
    match splitDot rest with
    | s :: ss => (c :: s) :: ss
    | [] => [[c]]

/-- Decimal value of a digit list. -/
def digitsVal (l : List Char) : Nat :=
  l.foldl (fun a c => a * 10 + (c.toNat - 48)) 0

/-- Python `float(x)` on a `[\d\.]+` token, as an exact rational: succeeds
iff the token has at most one dot and at least one digit (`float('.')` and
`float('1.2.3')` raise `ValueError`). -/
def pyFloatQ (s : String) : Option ℚ :=
  if s.data.all isAmountChar then
    match splitDot s.data with
    | [ds] => if ds.isEmpty then Option.none else some (digitsVal ds)
    | [ds, fs] =>
      if ds.isEmpty ∧ fs.isEmpty then Option.none
      else some ((digitsVal ds : ℚ) + (digitsVal fs : ℚ) / (10 : ℚ) ^ fs.length)
    | _ => Option.none
  else Option.none

/-- `[float(x) for x in l]`: left to right, aborting at the first failure. -/
def floatList : List String → Option (List ℚ)
  | [] => some []
  | s :: rest =>
    match pyFloatQ s, floatList rest with
    | some v, some vs => some (v :: vs)
    | _, _ => Option.none

/-- Insert into a lexicographically sorted list of strings. -/
def insertSorted (s : String) : List String → List String
  | [] => [s]
  | t :: rest => if s ≤ t then s :: t :: rest else t :: insertSorted s rest

/-- Python `sorted` on strings (insertion sort; lexicographic, as Python). -/
def sortStrings (l : List String) : List String :=
  l.foldr insertSorted []

/-- Python `l[-4:]`. -/
def takeLast4 {α : Type} (l : List α) : List α :=
  l.drop (l.length - 4)

/-- The default `'Year'` list (source line 99). -/
def defaultYears : List String := ["2022", "2023", "2024", "2025"]

/-- The default `'Revenue ($B)'` list (source line 100). -/
def defaultRevenues : List ℚ := [10.5, 12.1, 14.2, 16.8]

/-- The `data` dict after the extraction block (source lines 98–111).  The
`try` wraps only the two assignments: when the guard holds, `data['Year']`
is assigned first, so a `float` failure in the second assignment leaves the
new year list paired with the default revenues. -/
def chartData (r : String) : List String × List ℚ :=
  let years := findYears r.data
  let amounts := findAmounts r.data
  if 4 ≤ years.length ∧ 4 ≤ amounts.length then
    match floatList (amounts.take 4) with
    | some vs => (takeLast4 (sortStrings years.dedup), vs)
    | Option.none => (takeLast4 (sortStrings years.dedup), defaultRevenues)
  else (defaultYears, defaultRevenues)

/-- `pd.DataFrame(data)` (source line 113, outside the `try`): raises
`ValueError` — modelled as `none` — unless the two columns have equal
length. -/
def chartDF (r : String) : Option (List String × List ℚ) :=
  let d := chartData r
  if d.1.length = d.2.length then some d else Option.none

/-- Styling constants (source lines 19–21). -/
def CORP_BLUE : String := "#0F4C81"

/-- See `CORP_BLUE`. -/
def CORP_GREY : String := "#53565A"

/-- One matplotlib drawing call, as far as the program varies it.  Constant
style keywords that never change (`zorder`, arrow style/alpha, `ha`/`va`,
font weights, `bbox_inches='tight'`) are not repeated as fields. -/
inductive DrawOp where
  | figsize (w h : ℚ)
  | bars (labels : List String) (heights : List ℚ) (color : String) (width : ℚ)
  | spineVisible (side : String) (visible : Bool)
  | spineColor (side : String) (color : String)
  | grid (axis line : String) (alpha : ℚ)
  | title (text loc : String) (fontsize : ℚ) (color : String)
  | barLabel (height : ℚ)
  | axisOff
  | xlim (lo hi : ℚ)
  | ylim (lo hi : ℚ)
  | boxPatch (x y w h : ℚ) (edge face : String)
  | text (x y : ℚ) (s : String) (fontsize : ℚ) (color : String)
  | arrow (x1 y1 x2 y2 rad : ℚ)
  | savePng (dpi : ℚ)
deriving DecidableEq, Repr

/-- `create_premium_chart(research_text)` as its sequence of drawing calls
(source lines 113–136); `none` when the `DataFrame` constructor raises.  The
text above each bar is `f'${height}B'` at `height + 0.1`, recorded as
`barLabel height`. -/
def create_premium_chart (research_text : String) : Option (List DrawOp) :=
  match chartDF research_text with
  | Option.none => Option.none
  | some (ys, vs) =>
    some ([DrawOp.figsize 8 4.5,
           DrawOp.bars ys vs CORP_BLUE 0.5,
           DrawOp.spineVisible "top" false,
           DrawOp.spineVisible "right" false,
           DrawOp.spineVisible "left" false,
           DrawOp.spineColor "bottom" "#DDDDDD",
           DrawOp.grid "y" ":" 0.6,
           DrawOp.title "Financial Trajectory & Growth Vector" "left" 12 CORP_GREY]
          ++ vs.map DrawOp.barLabel
          ++ [DrawOp.savePng 300])

/-- `create_system_schematic()` as its fixed sequence of drawing calls
(source lines 138–178).  Each `draw_box(x, y, w, h, text, color, ec)` is a
`boxPatch` followed by the centred label `text` at fontsize 9 in
`CORP_GREY`. -/
def create_system_schematic : List DrawOp :=
  [DrawOp.figsize 9 5,
   DrawOp.axisOff,
   DrawOp.xlim 0 10,
   DrawOp.ylim 0 6,
   DrawOp.boxPatch 4 2.5 2 1 "none" CORP_BLUE,
   DrawOp.text 5 3 "Agentic\nOrchestrator" 9 CORP_GREY,
   DrawOp.text 5 3 "Gemini 2.5 Pro" 8 "white",
   DrawOp.boxPatch 0.5 4 2 0.8 CORP_BLUE "#EEF5FB",
   DrawOp.text 1.5 4.4 "Live Market Data\n(Perplexity)" 9 CORP_GREY,
   DrawOp.boxPatch 0.5 1 2 0.8 CORP_BLUE "#EEF5FB",
   DrawOp.text 1.5 1.4 "Internal ERP\n(SQL/SAP)" 9 CORP_GREY,
   DrawOp.boxPatch 7.5 4 2 0.8 CORP_BLUE "#EEF5FB",
   DrawOp.text 8.5 4.4 "Executive\nDashboard" 9 CORP_GREY,
   DrawOp.boxPatch 7.5 1 2 0.8 CORP_BLUE "#EEF5FB",
   DrawOp.text 8.5 1.4 "Auto-Action\nTriggers" 9 CORP_GREY,
   DrawOp.arrow 2.8 4.4 3.9 3.5 (-0.2),
   DrawOp.arrow 2.8 1.4 3.9 2.5 0.2,
   DrawOp.arrow 6.1 3.5 7.4 4.4 (-0.2),
   DrawOp.arrow 6.1 2.5 7.4 1.4 0.2,
   DrawOp.text 5 5.5 "Proposed AI Architecture: The 'Neuro-Symbolic' Core" 14 CORP_GREY,
   DrawOp.savePng 300]

/-! ## Process-global pyplot state -/

/-- The process-global pyplot figure registry: `plt.subplots()` adds a
figure, and only `plt.close` (never called by this program) removes one.
This is the only cross-run mutable state the program touches. -/
structure RunState where
  openFigures : Nat
deriving DecidableEq, Repr

/-- `create_premium_chart` with its pyplot effect: the figure is created
only after `pd.DataFrame` succeeded (`plt.subplots` is on line 116, after
line 113), and it is never closed. -/
def chartRun (s : RunState) (research_text : String) :
    RunState × Option (List DrawOp) :=
  match create_premium_chart research_text with
  | Option.none => (s, Option.none)
  | some ops => ({ openFigures := s.openFigures + 1 }, some ops)

/-- `create_system_schematic` with its pyplot effect. -/
def schematicRun (s : RunState) : RunState × List DrawOp :=
  ({ openFigures := s.openFigures + 1 }, create_system_schematic)

/-! ## Document compiler: `create_consulting_doc` (source lines 182–260) -/

/-- One python-docx operation the program performs on the fresh
`Document()`.  `overwritePlaceholder` is the operation a template-population
design would use (locating a placeholder in a pre-built template and
overwriting it); it is part of the observation vocabulary and this program
never emits it. -/
inductive DocOp where
  | setNormalFont (name : String) (sizePt : ℚ)
  | headerTable (rows cols : Nat) (colWidths : List ℚ) (cells : List String)
  | paragraph (text : String) (style align : Option String)
  | heading (text : String) (level : Nat)
  | picture (img : List DrawOp) (widthInches : ℚ)
  | table (style : String) (rows : List (List String))
  | footerParagraph (text : String) (align : Option String)
  | overwritePlaceholder (index : Nat) (text : String)
deriving DecidableEq, Repr

/-- Split at every occurrence of `"->"`, leftmost first: first segment and
the remaining segments. -/
def splitArrowCore : List Char → List Char × List (List Char)
  | [] => ([], [])
  | '-' :: '>' :: rest =>
    let p := splitArrowCore rest
    ([], p.1 :: p.2)
  | c :: rest =>
    let p := splitArrowCore rest
    (c :: p.1, p.2)

/-- Python `s.split("->")` on a character list (always nonempty). -/
def splitArrow (l : List Char) : List (List Char) :=
  (splitArrowCore l).1 :: (splitArrowCore l).2

/-- The execution-timeline table rows built from the already-cleaned roadmap
text (source lines 237–249): a header row, then one row per `"->"` segment,
each `["Phase", segment.strip()]`. -/
def roadmapRows (cleanedRoadmap : String) : List (List String) :=
  ["Phase", "Key Deliverables"] ::
    (splitArrow cleanedRoadmap.data).map
      (fun seg => ["Phase", String.mk (pyStripL seg)])

/-- `clean_markdown(strategy[k])`: `none` when the subscript or `re.sub`
raises. -/
def cleanField (strategy : PyValue) (k : String) : Option String :=
  (getField strategy k).bind clean_markdown

/-- `create_consulting_doc(company, strategy, chart_img, arch_img)`: the
sequence of operations applied to the fresh blank `Document()`, or `none`
when one of the six `strategy[...]` reads / `clean_markdown` calls raises
(the source interleaves those reads with the appends; the produced document
exists only when all six succeed, which this match captures).  `now` is
`datetime.now().strftime('%B %Y')`, a clock read, passed as a parameter. -/
def create_consulting_doc (company now : String) (strategy : PyValue)
    (chart_img arch_img : List DrawOp) : Option (List DocOp) :=
  match cleanField strategy "title", cleanField strategy "executive_summary",
        cleanField strategy "problem_deep_dive", cleanField strategy "solution_tech",
        cleanField strategy "financial_impact", cleanField strategy "roadmap" with
  | some title, some summary, some problem, some solution, some financial, some roadmap =>
    some
      [DocOp.setNormalFont "Arial" 11,
       DocOp.headerTable 1 2 [4, 2]
         ["STRATEGIC TRANSFORMATION BRIEF", now ++ " | Confidential"],
       DocOp.paragraph "\n" Option.none Option.none,
       DocOp.paragraph title (some "Title") (some "LEFT"),
       DocOp.paragraph ("Prepared for the Leadership of " ++ company)
         (some "Subtitle") Option.none,
       DocOp.paragraph "\n" Option.none Option.none,
       DocOp.heading "1. Executive Abstract" 1,
       DocOp.paragraph summary Option.none Option.none,
       DocOp.heading "2. The Growth Bottleneck" 1,
       DocOp.paragraph problem Option.none Option.none,
       DocOp.paragraph "\n" Option.none Option.none,
       DocOp.picture chart_img 6,
       DocOp.paragraph "Figure 1: Revenue Constraints Analysis" Option.none (some "CENTER"),
       DocOp.heading "3. The AI Solution Architecture" 1,
       DocOp.paragraph solution Option.none Option.none,
       DocOp.paragraph "\n" Option.none Option.none,
       DocOp.picture arch_img 6,
       DocOp.paragraph "Figure 2: Enterprise AI Orchestration Layer" Option.none (some "CENTER"),
       DocOp.heading "4. Financial Impact & Roadmap" 1,
       DocOp.paragraph financial Option.none Option.none,
       DocOp.paragraph "\n" Option.none Option.none,
       DocOp.heading "Execution Timeline" 2,
       DocOp.table "Light Shading Accent 1" (roadmapRows roadmap),
       DocOp.footerParagraph "Strategy by Shubham Verma | Generated via Custom AI Engine"
         (some "RIGHT")]
  | _, _, _, _, _, _ => Option.none

/-- Is this one of the append-style operations the program uses to build the
document from scratch (as opposed to overwriting a template placeholder)? -/
def isAppendOp : DocOp → Bool
  | DocOp.overwritePlaceholder _ _ => false
  | _ => true

/-- The rows of a body table operation. -/
def tableRowsOf : DocOp → Option (List (List String))
  | DocOp.table _ rows => some rows
  | _ => Option.none

/-! ## The UI run block (source lines 269–294) -/

/-- One run of the UI block: guarded by `if company_input and st.button(...)`
(nonempty company, button pressed).  Returns the pyplot state after the run,
the event trace (truncated at the first uncaught exception), and the
serialized document buffer when the run completed.  In the source the
narrative is computed between the research fetch and the chart; since
`get_strategic_narrative` is total (bare `except`), referring to its pure
result inside the later branches is unobservable and keeps the branching on
the two operations that can actually raise (`pd.DataFrame`, the
`strategy[...]` reads). -/
def uiRun (pressed : Bool) (company now : String)
    (pplx : PplxRequest → PplxResponse) (gem : String → Option String)
    (ev : String → Option PyValue) (s : RunState) :
    RunState × List Event × Option (List DocOp) :=
  if company ≠ "" ∧ pressed = true then
    match (get_deep_research company pplx).2 with
    | Option.none => (s, [Event.fetchResearch], Option.none)
    | some research =>
      match chartRun s research with
      | (s1, Option.none) =>
        (s1, Event.fetchResearch :: (get_strategic_narrative company research gem ev).1,
         Option.none)
      | (s1, some chart) =>
        match create_consulting_doc company now
            (get_strategic_narrative company research gem ev).2 chart
            (schematicRun s1).2 with
        | Option.none =>
          ((schematicRun s1).1,
           Event.fetchResearch :: (get_strategic_narrative company research gem ev).1 ++
             [Event.renderChart, Event.renderSchematic],
           Option.none)
        | some ops =>
          ((schematicRun s1).1,
           Event.fetchResearch :: (get_strategic_narrative company research gem ev).1 ++
             [Event.renderChart, Event.renderSchematic, Event.populateDoc,
              Event.serializeDoc],
           some ops)
  else (s, [], Option.none)

/-! ## Helper lemmas -/

/-- A successful `[float(x) for x in l]` has one value per token. -/
theorem floatList_length : ∀ (l : List String) (vs : List ℚ),
    floatList l = some vs → vs.length = l.length := by
  intro l
  induction l with
  | nil => intro vs h; simp [floatList] at h; simp [← h]
  | cons s rest ih =>
    intro vs h
    unfold floatList at h
    rcases h1 : pyFloatQ s with _ | v <;> rw [h1] at h
    · simp at h
    · rcases h2 : floatList rest with _ | ws <;> rw [h2] at h
      · simp at h
      · simp at h
        rw [← h]
        simp [ih ws h2]

/-- Insertion grows the list by one. -/
theorem insertSorted_length (s : String) : ∀ l : List String,
    (insertSorted s l).length = l.length + 1 := by
  intro l
  induction l with
  | nil => rfl
  | cons t rest ih =>
    unfold insertSorted
    by_cases h : s ≤ t
    · simp [h]
    · simp [h, ih]

/-- Sorting preserves length. -/
theorem sortStrings_length : ∀ l : List String,
    (sortStrings l).length = l.length := by
  intro l
  induction l with
  | nil => rfl
  | cons s rest ih => simp [sortStrings, List.foldr] at ih ⊢; rw [insertSorted_length, ih]

/-- `l[-4:]` keeps `min (length l) 4` elements. -/
theorem takeLast4_length {α : Type} (l : List α) :
    (takeLast4 l).length = min l.length 4 := by
  simp [takeLast4]
  omega

/-- The `'Year'` column after the extraction block. -/
theorem chartData_fst (r : String) :
    (chartData r).1 =
      if 4 ≤ (findYears r.data).length ∧ 4 ≤ (findAmounts r.data).length then
        takeLast4 (sortStrings (findYears r.data).dedup)
      else defaultYears := by
  unfold chartData
  by_cases hg : 4 ≤ (findYears r.data).length ∧ 4 ≤ (findAmounts r.data).length
  · rw [if_pos hg, if_pos hg]
    rcases floatList ((findAmounts r.data).take 4) with _ | vs <;> rfl
  · rw [if_neg hg, if_neg hg]

/-- The `'Revenue ($B)'` column always has four entries. -/
theorem chartData_snd_length (r : String) : (chartData r).2.length = 4 := by
  unfold chartData
  by_cases hg : 4 ≤ (findYears r.data).length ∧ 4 ≤ (findAmounts r.data).length
  · rw [if_pos hg]
    rcases hfl : floatList ((findAmounts r.data).take 4) with _ | vs
    · rfl
    · have := floatList_length _ _ hfl
      simp only [List.length_take] at this
      simp only [this]
      omega
  · rw [if_neg hg]; rfl

/-- `pd.DataFrame(data)` raises exactly when the extraction fired with fewer
than four distinct years. -/
theorem chartDF_none_iff (r : String) :
    chartDF r = Option.none ↔
      (4 ≤ (findYears r.data).length ∧ 4 ≤ (findAmounts r.data).length ∧
       (findYears r.data).dedup.length < 4) := by
  unfold chartDF
  have h2 := chartData_snd_length r
  have h1 := chartData_fst r
  by_cases hg : 4 ≤ (findYears r.data).length ∧ 4 ≤ (findAmounts r.data).length
  · rw [if_pos hg] at h1
    have hl : (chartData r).1.length = min (findYears r.data).dedup.length 4 := by
      rw [h1, takeLast4_length, sortStrings_length]
    constructor
    · intro h
      refine ⟨hg.1, hg.2, ?_⟩
      by_contra hlt
      rw [if_pos (by omega : (chartData r).1.length = (chartData r).2.length)] at h
      · exact Option.noConfusion h
    · intro ⟨_, _, hlt⟩
      rw [if_neg (by omega)]
  · rw [if_neg hg] at h1
    rw [if_pos (by rw [h1, h2]; rfl)]
    constructor
    · intro h; exact Option.noConfusion h
    · intro ⟨ha, hb, _⟩; exact absurd ⟨ha, hb⟩ hg

/-- When the `DataFrame` is built, both columns have exactly four entries. -/
theorem chartDF_some_lengths (r : String) (ys : List String) (vs : List ℚ)
    (h : chartDF r = some (ys, vs)) : ys.length = 4 ∧ vs.length = 4 := by
  unfold chartDF at h
  by_cases hc : (chartData r).1.length = (chartData r).2.length
  · rw [if_pos hc] at h
    have h2 := chartData_snd_length r
    injection h with h
    have hy : (chartData r).1 = ys := by rw [h]
    have hv : (chartData r).2 = vs := by rw [h]
    constructor
    · rw [← hy]; omega
    · rw [← hv]; exact h2
  · rw [if_neg hc] at h
    exact Option.noConfusion h

/-- `clean_markdown` on a genuine string never raises. -/
theorem clean_markdown_str (s : String) :
    clean_markdown (.str s) = some (cleanStr s) := by
  unfold clean_markdown pyFalsy
  by_cases h : s = ""
  · subst h; rfl
  · simp [h]

/-- A strategy mapping with the six string keys gets through the document
compiler without an exception. -/
theorem create_doc_isSome_of_sixKeys (company now : String) (v : PyValue)
    (chart arch : List DrawOp) (h : hasSixStringKeys v = true) :
    (create_consulting_doc company now v chart arch).isSome = true := by
  have hs : ∀ k ∈ strategyKeys, isStrField v k = true := by
    simpa [hasSixStringKeys, List.all_eq_true] using h
  have key : ∀ k ∈ strategyKeys, ∃ s, cleanField v k = some s := by
    intro k hk
    have hf := hs k hk
    unfold isStrField at hf
    rcases hg : getField v k with _ | w <;> rw [hg] at hf
    · simp at hf
    · cases w with
      | str s =>
        refine ⟨cleanStr s, ?_⟩
        unfold cleanField
        rw [hg]
        simp [clean_markdown_str]
      | int n => simp at hf
      | none => simp at hf
      | list xs => simp at hf
      | dict kvs => simp at hf
  obtain ⟨s1, e1⟩ := key "title" (by simp [strategyKeys])
  obtain ⟨s2, e2⟩ := key "executive_summary" (by simp [strategyKeys])
  obtain ⟨s3, e3⟩ := key "problem_deep_dive" (by simp [strategyKeys])
  obtain ⟨s4, e4⟩ := key "solution_tech" (by simp [strategyKeys])
  obtain ⟨s5, e5⟩ := key "financial_impact" (by simp [strategyKeys])
  obtain ⟨s6, e6⟩ := key "roadmap" (by simp [strategyKeys])
  unfold create_consulting_doc
  rw [e1, e2, e3, e4, e5, e6]
  rfl

/-! ## Claim theorems -/

/-- C8 (amended): the revenue column handed to `pd.DataFrame` always has
exactly four entries; the construction succeeds iff the extraction guard did
not fire (fewer than four year matches or dollar amounts, default 4×4 data)
or the text has at least four distinct year matches; when it succeeds, both
columns have exactly four entries.  (The claim's unconditional equal-length
statement fails: with ≥ 4 year matches but < 4 distinct years the year
column is shorter than 4 and `pd.DataFrame` — outside the `try` — raises.) -/
theorem chart_data_lengths : ∀ r : String,
    (chartData r).2.length = 4 ∧
    (chartDF r = Option.none ↔
      (4 ≤ (findYears r.data).length ∧ 4 ≤ (findAmounts r.data).length ∧
       (findYears r.data).dedup.length < 4)) ∧
    (∀ ys vs, chartDF r = some (ys, vs) → ys.length = 4 ∧ vs.length = 4) := by
  intro r
  exact ⟨chartData_snd_length r, chartDF_none_iff r,
         fun ys vs h => chartDF_some_lengths r ys vs h⟩

/-- Witness for C8: on the empty research text the guard does not fire, the
`DataFrame` is built from the default columns, and both have four entries. -/
theorem chart_data_lengths_check :
    chartDF "" = some (defaultYears, defaultRevenues) ∧
    defaultYears.length = 4 ∧ defaultRevenues.length = 4 :=
  ⟨rfl, (chart_data_lengths "").2.2 defaultYears defaultRevenues rfl⟩

/-- Counterexample for C8: four year matches but one distinct year — the
year column has length 1, the revenue column length 4, and the `DataFrame`
construction after the extraction block fails. -/
theorem chart_df_mismatch :
    chartDF "2022 2022 2022 2022 $1 $2 $3 $4" = Option.none ∧
    (chartData "2022 2022 2022 2022 $1 $2 $3 $4").1 = ["2022"] ∧
    (chartData "2022 2022 2022 2022 $1 $2 $3 $4").2.length = 4 := by
  decide

/-- C5 (amended): `create_system_schematic` takes no input and is a single
fixed sequence of drawing calls; `create_premium_chart`, on every research
text on which its `DataFrame` construction succeeds, emits one fixed layout
in which only the four year labels and the four bar heights depend on the
text.  (The claim's "for every research text" fails: on texts where the
extraction produces mismatched columns the function raises and emits
nothing — see the counterexample.) -/
theorem fixed_layout_render :
    create_system_schematic =
      [DrawOp.figsize 9 5, DrawOp.axisOff, DrawOp.xlim 0 10, DrawOp.ylim 0 6,
       DrawOp.boxPatch 4 2.5 2 1 "none" "#0F4C81",
       DrawOp.text 5 3 "Agentic\nOrchestrator" 9 "#53565A",
       DrawOp.text 5 3 "Gemini 2.5 Pro" 8 "white",
       DrawOp.boxPatch 0.5 4 2 0.8 "#0F4C81" "#EEF5FB",
       DrawOp.text 1.5 4.4 "Live Market Data\n(Perplexity)" 9 "#53565A",
       DrawOp.boxPatch 0.5 1 2 0.8 "#0F4C81" "#EEF5FB",
       DrawOp.text 1.5 1.4 "Internal ERP\n(SQL/SAP)" 9 "#53565A",
       DrawOp.boxPatch 7.5 4 2 0.8 "#0F4C81" "#EEF5FB",
       DrawOp.text 8.5 4.4 "Executive\nDashboard" 9 "#53565A",
       DrawOp.boxPatch 7.5 1 2 0.8 "#0F4C81" "#EEF5FB",
       DrawOp.text 8.5 1.4 "Auto-Action\nTriggers" 9 "#53565A",
       DrawOp.arrow 2.8 4.4 3.9 3.5 (-0.2), DrawOp.arrow 2.8 1.4 3.9 2.5 0.2,
       DrawOp.arrow 6.1 3.5 7.4 4.4 (-0.2), DrawOp.arrow 6.1 2.5 7.4 1.4 0.2,
       DrawOp.text 5 5.5 "Proposed AI Architecture: The 'Neuro-Symbolic' Core" 14 "#53565A",
       DrawOp.savePng 300] ∧
    ∀ r ys vs, chartDF r = some (ys, vs) →
      create_premium_chart r =
        some ([DrawOp.figsize 8 4.5,
               DrawOp.bars ys vs "#0F4C81" 0.5,
               DrawOp.spineVisible "top" false,
               DrawOp.spineVisible "right" false,
               DrawOp.spineVisible "left" false,
               DrawOp.spineColor "bottom" "#DDDDDD",
               DrawOp.grid "y" ":" 0.6,
               DrawOp.title "Financial Trajectory & Growth Vector" "left" 12 "#53565A"]
              ++ vs.map DrawOp.barLabel
              ++ [DrawOp.savePng 300]) ∧
      ys.length = 4 ∧ vs.length = 4 := by
  constructor
  · rfl
  · intro r ys vs h
    have hl := chartDF_some_lengths r ys vs h
    unfold create_premium_chart
    rw [h]
    exact ⟨rfl, hl⟩

/-- Witness for C5: on the research text `"x"` nothing is extracted, the
default columns are plotted, and the layout is the fixed one. -/
theorem fixed_layout_render_check :
    create_premium_chart "x" =
      some ([DrawOp.figsize 8 4.5,
             DrawOp.bars defaultYears defaultRevenues "#0F4C81" 0.5,
             DrawOp.spineVisible "top" false,
             DrawOp.spineVisible "right" false,
             DrawOp.spineVisible "left" false,
             DrawOp.spineColor "bottom" "#DDDDDD",
             DrawOp.grid "y" ":" 0.6,
             DrawOp.title "Financial Trajectory & Growth Vector" "left" 12 "#53565A"]
            ++ defaultRevenues.map DrawOp.barLabel
            ++ [DrawOp.savePng 300]) ∧
    defaultYears.length = 4 ∧ defaultRevenues.length = 4 :=
  fixed_layout_render.2 "x" defaultYears defaultRevenues rfl

/-- Counterexample for C5: five year matches of a single distinct year make
the extraction fire with a one-entry year column, so `create_premium_chart`
raises and emits no drawing calls at all. -/
theorem premium_chart_raises :
    create_premium_chart "2023 2023 2023 2023 2023 $1 $2 $3 $4" = Option.none := by
  decide

/-- C9 (amended): `clean_markdown` returns `""` on a missing (`None`) and on
an empty-string argument.  (The idempotence half of the claim fails — see
the counterexample.) -/
theorem clean_markdown_empty_total :
    clean_markdown PyValue.none = some "" ∧
    clean_markdown (PyValue.str "") = some "" := by
  decide

/-- Counterexample for C9: `clean_markdown` is not idempotent.  On
`"*##*a*##*"` the `##`-removal pass glues the surrounding `*`s into a fresh
`**a**`, which only a second application strips to `"a"`. -/
theorem clean_markdown_not_idempotent :
    cleanStr "*##*a*##*" = "**a**" ∧
    cleanStr (cleanStr "*##*a*##*") = "a" ∧
    cleanStr (cleanStr "*##*a*##*") ≠ cleanStr "*##*a*##*" := by
  decide

/-- C1: the parsing of the model's structured output is generic dynamic
evaluation.  Whenever the model call returns text and the evaluation of the
marker-stripped text produces a value — any value `v` whatsoever, with no
schema validation — `get_strategic_narrative` returns exactly that value.
The final conjunct exhibits the stripping of the ```json / ``` markers and
surrounding whitespace on a concrete reply. -/
theorem narrative_returns_model_value :
    (∀ company research gem ev (t : String) (v : PyValue),
      gem (narrPrompt company research) = some t →
      ev (stripMarkers t) = some v →
      (get_strategic_narrative company research gem ev).2 = v) ∧
    stripMarkers " ```json A``` " = "A" := by
  constructor
  · intro company research gem ev t v h1 h2
    unfold get_strategic_narrative
    rw [h1]
    simp [h2]
  · decide

/-- Witness for C1: a model reply `"```json 7 ```"` strips to `"7"`, and the
integer-literal `eval` oracle turns it into the Python value `7`, which the
function returns as is (no mapping shape is enforced). -/
theorem narrative_returns_model_value_check :
    (get_strategic_narrative "Acme" "alpha" (fun _ => some "```json 7 ```")
        pyEvalIntLit).2 = PyValue.int 7 :=
  narrative_returns_model_value.1 "Acme" "alpha" (fun _ => some "```json 7 ```")
    pyEvalIntLit "```json 7 ```" (PyValue.int 7) rfl rfl

/-- C3 (amended): `get_strategic_narrative` never raises — when the model
call or the evaluation fails it returns the fixed fallback mapping, whose
title is `"Strategic Roadmap: {company}"`, whose executive summary is the
retry message, and which does have the six string keys.  (The claim that
*every* result is a mapping with the six string keys fails: a successful
`eval` result is returned unvalidated — see the counterexample.) -/
theorem narrative_fallback_total :
    ∀ company research gem ev,
      (gem (narrPrompt company research) = Option.none →
        get_strategic_narrative company research gem ev =
          ([Event.askModel], fallbackStrategy company)) ∧
      (∀ t, gem (narrPrompt company research) = some t →
        ev (stripMarkers t) = Option.none →
        (get_strategic_narrative company research gem ev).2 = fallbackStrategy company) ∧
      hasSixStringKeys (fallbackStrategy company) = true ∧
      getField (fallbackStrategy company) "title" =
        some (.str ("Strategic Roadmap: " ++ company)) ∧
      getField (fallbackStrategy company) "executive_summary" =
        some (.str "Analysis data unavailable. Please retry agent.") := by
  intro company research gem ev
  refine ⟨?_, ?_, rfl, rfl, rfl⟩
  · intro h
    unfold get_strategic_narrative
    rw [h]
  · intro t h1 h2
    unfold get_strategic_narrative
    rw [h1]
    simp [h2]

/-- Witness for C3: with a failing model oracle the function returns the
fallback mapping for `"Acme"`, which has the six string keys. -/
theorem narrative_fallback_total_check :
    get_strategic_narrative "Acme" "alpha" (fun _ => Option.none) pyEvalIntLit =
      ([Event.askModel], fallbackStrategy "Acme") ∧
    hasSixStringKeys (fallbackStrategy "Acme") = true :=
  ⟨(narrative_fallback_total "Acme" "alpha" (fun _ => Option.none) pyEvalIntLit).1 rfl,
   (narrative_fallback_total "Acme" "alpha" (fun _ => Option.none) pyEvalIntLit).2.2.1⟩

/-- Counterexample for C3: when the model replies `"42"`, `eval` succeeds
with the integer `42`, and `get_strategic_narrative` returns it — not a
mapping, and without the six string keys. -/
theorem narrative_nonmapping_result :
    (get_strategic_narrative "Acme" "research" (fun _ => some "42")
        pyEvalIntLit).2 = PyValue.int 42 ∧
    hasSixStringKeys (PyValue.int 42) = false :=
  ⟨rfl, rfl⟩

/-- C7: `get_deep_research` issues exactly one chat-completion request, to
model `"sonar"`, with a single user message whose content embeds the company
name (twice, in the transcribed f-string), and returns
`response.choices[0].message.content` unchanged when a first choice
exists. -/
theorem deep_research_single_request :
    ∀ company pplx,
      (get_deep_research company pplx).1 = [researchRequest company] ∧
      researchRequest company =
        { model := "sonar",
          messages := [{ role := "user", content := researchQuery company }] } ∧
      researchQuery company =
        "\n    Act as a Forensic Auditor for " ++ company ++
          " in 2026.\n    1. FIND THE BLEED: Identify the #1 operational bottleneck costing >$50M.\n    2. GET THE DATA: Provide a CSV-style list of " ++
          company ++
          "'s Revenue and Net Income for 2022, 2023, 2024, 2025 (Est).\n    3. TECH DEBT: Specific legacy systems (e.g., SAP, Oracle, On-prem) slowing them down.\n    Output strictly factual data. No fluff.\n    " ∧
      ∀ c rest, (pplx (researchRequest company)).choices = c :: rest →
        (get_deep_research company pplx).2 = some c.message.content := by
  intro company pplx
  refine ⟨rfl, rfl, rfl, ?_⟩
  intro c rest h
  unfold get_deep_research
  rw [h]

/-- Witness for C7: with an oracle answering one choice `"data"`, the fetch
returns `"data"` and issues the single `"sonar"` request. -/
theorem deep_research_single_request_check :
    (get_deep_research "Acme"
        (fun _ => { choices := [{ message := { role := "assistant", content := "data" } }] })).2 =
      some "data" :=
  (deep_research_single_request "Acme"
      (fun _ => { choices := [{ message := { role := "assistant", content := "data" } }] })).2.2.2
    { message := { role := "assistant", content := "data" } } [] rfl

/-- C4 (amended): whenever `create_consulting_doc` produces a document, that
document is built by appending content (header table, paragraphs, headings,
pictures, a table, a footer) to the fresh blank `Document()`; no placeholder
of a pre-built template is located or overwritten.  (The claim that
production works by placeholder overwriting fails — see the
counterexample.) -/
theorem doc_built_by_appending :
    ∀ company now strategy chart arch ops,
      create_consulting_doc company now strategy chart arch = some ops →
      ops ≠ [] ∧ ops.all isAppendOp = true := by
  intro company now strategy chart arch ops h
  unfold create_consulting_doc at h
  split at h
  · injection h with h
    subst h
    exact ⟨by simp, rfl⟩
  · exact Option.noConfusion h

/-- Witness for C4: a concrete successful run of the document compiler. -/
theorem doc_built_by_appending_check :
    ((create_consulting_doc "Acme" "May 2026" (fallbackStrategy "Acme") [] []).getD [])
        ≠ [] ∧
    ((create_consulting_doc "Acme" "May 2026" (fallbackStrategy "Acme") [] []).getD []).all
        isAppendOp = true := by
  have h : create_consulting_doc "Acme" "May 2026" (fallbackStrategy "Acme") [] [] =
      some ((create_consulting_doc "Acme" "May 2026" (fallbackStrategy "Acme") [] []).getD []) :=
    rfl
  exact doc_built_by_appending "Acme" "May 2026" (fallbackStrategy "Acme") [] [] _ h

/-- Counterexample for C4: a concrete run produces a nonempty operation
sequence containing not a single placeholder overwrite — the document is
constructed from scratch, not by populating a pre-built template. -/
theorem doc_no_placeholder_overwrite :
    ((create_consulting_doc "Contoso" "June 2026" (fallbackStrategy "Contoso") [] []).map
        (fun ops => !ops.isEmpty &&
          ops.all isAppendOp &&
          (ops.countP (fun op => !isAppendOp op) == 0))) = some true := by
  decide

/-- C10: for every strategy mapping whose `roadmap` value is a string, the
execution-timeline table of the produced document is exactly one header row
`["Phase", "Key Deliverables"]` plus one row per `"->"`-separated segment of
the cleaned roadmap text — hence at least two rows — and every row has two
cells, each non-header row being `["Phase", segment.strip()]`. -/
theorem roadmap_table_rows :
    ∀ company now strategy chart arch r ops,
      getField strategy "roadmap" = some (.str r) →
      create_consulting_doc company now strategy chart arch = some ops →
      ops.filterMap tableRowsOf = [roadmapRows (cleanStr r)] ∧
      (roadmapRows (cleanStr r)).length =
        1 + (splitArrow (cleanStr r).data).length ∧
      2 ≤ (roadmapRows (cleanStr r)).length ∧
      (∀ row ∈ roadmapRows (cleanStr r), row.length = 2) ∧
      (roadmapRows (cleanStr r)).head? = some ["Phase", "Key Deliverables"] ∧
      (roadmapRows (cleanStr r)).tail =
        (splitArrow (cleanStr r).data).map
          (fun seg => ["Phase", String.mk (pyStripL seg)]) := by
  intro company now strategy chart arch r ops hr hd
  have hclean : cleanField strategy "roadmap" = some (cleanStr r) := by
    unfold cleanField
    rw [hr]
    simp [clean_markdown_str]
  unfold create_consulting_doc at hd
  split at hd
  · rename_i title summary problem solution financial roadmap h1 h2 h3 h4 h5 h6
    rw [hclean] at h6
    injection h6 with h6
    injection hd with hd
    subst hd
    subst h6
    refine ⟨rfl, ?_, ?_, ?_, rfl, rfl⟩
    · simp [roadmapRows, splitArrow]
      omega
    · simp [roadmapRows, splitArrow]
    · intro row hrow
      rw [roadmapRows] at hrow
      rcases List.mem_cons.mp hrow with h | h
      · subst h; rfl
      · obtain ⟨seg, _, hseg⟩ := List.mem_map.mp h
        rw [← hseg]
        rfl
  · exact Option.noConfusion hd

/-- Witness for C10: a strategy with roadmap `"Q1: Pilot -> Q2: Scale"`
yields a three-row table (header plus two phase rows). -/
theorem roadmap_table_rows_check :
    2 ≤ (roadmapRows (cleanStr "Q1: Pilot -> Q2: Scale")).length ∧
    (roadmapRows (cleanStr "Q1: Pilot -> Q2: Scale")).head? =
      some ["Phase", "Key Deliverables"] := by
  have h := roadmap_table_rows "Acme" "May 2026"
    (PyValue.dict [("title", .str "T"), ("executive_summary", .str "E"),
      ("problem_deep_dive", .str "P"), ("solution_tech", .str "S"),
      ("financial_impact", .str "F"), ("roadmap", .str "Q1: Pilot -> Q2: Scale")])
    [] [] "Q1: Pilot -> Q2: Scale"
    ((create_consulting_doc "Acme" "May 2026"
      (PyValue.dict [("title", .str "T"), ("executive_summary", .str "E"),
        ("problem_deep_dive", .str "P"), ("solution_tech", .str "S"),
        ("financial_impact", .str "F"), ("roadmap", .str "Q1: Pilot -> Q2: Scale")])
      [] []).getD [])
    rfl rfl
  exact ⟨h.2.2.1, h.2.2.2.2.1⟩

/-- The narrative step either stops after the model call failed or also ran
the evaluator. -/
theorem narr_events (company research : String) (gem : String → Option String)
    (ev : String → Option PyValue) :
    (get_strategic_narrative company research gem ev).1 = [Event.askModel] ∨
    (get_strategic_narrative company research gem ev).1 =
      [Event.askModel, Event.evalParse] := by
  unfold get_strategic_narrative
  cases hg : gem (narrPrompt company research) with
  | none => left; rfl
  | some t => right; rfl

/-- The chart step raises exactly when the `DataFrame` construction does. -/
theorem create_premium_chart_none_iff (r : String) :
    create_premium_chart r = Option.none ↔ chartDF r = Option.none := by
  unfold create_premium_chart
  cases h : chartDF r with
  | none => simp
  | some d => cases d; simp

/-- C2 (amended): every UI run with a nonempty company name and a pressed
button executes the pipeline steps in the claimed order — the event trace is
an in-order subsequence of fetch → ask-model → eval-parse → render-chart →
render-schematic → populate-doc → serialize — and the trace is exactly the
full sequence, with a document produced, whenever every step succeeds: the
search API returns a first choice, the model returns text, the evaluation
returns a value, that value is a mapping with the six string keys, and the
chart data is well formed.  (The claim's unconditional "exactly this
sequence" fails on runs where a step raises — see the counterexample.) -/
theorem run_trace_order :
    ∀ (pressed : Bool) (company now : String) (pplx : PplxRequest → PplxResponse)
      (gem : String → Option String) (ev : String → Option PyValue) (s : RunState),
      company ≠ "" → pressed = true →
      List.Sublist (uiRun pressed company now pplx gem ev s).2.1 fullSeq ∧
      (∀ c rest (t : String) (v : PyValue),
        (pplx (researchRequest company)).choices = c :: rest →
        gem (narrPrompt company c.message.content) = some t →
        ev (stripMarkers t) = some v →
        hasSixStringKeys v = true →
        chartDF c.message.content ≠ Option.none →
        (uiRun pressed company now pplx gem ev s).2.1 = fullSeq ∧
        (uiRun pressed company now pplx gem ev s).2.2.isSome = true) := by
  intro pressed company now pplx gem ev s hc hp
  subst hp
  rcases hch : (pplx (researchRequest company)).choices with _ | ⟨c, rest⟩
  · have hrun : uiRun true company now pplx gem ev s =
        (s, [Event.fetchResearch], Option.none) := by
      unfold uiRun get_deep_research
      rw [if_pos ⟨hc, rfl⟩, hch]
    rw [hrun]
    refine ⟨(by decide : List.Sublist [Event.fetchResearch] fullSeq), ?_⟩
    intro c' rest' t v h1 _ _ _ _
    exact List.noConfusion h1
  · rcases hcp : create_premium_chart c.message.content with _ | chart
    · have hrun : uiRun true company now pplx gem ev s =
          (s, Event.fetchResearch ::
            (get_strategic_narrative company c.message.content gem ev).1,
           Option.none) := by
        unfold uiRun get_deep_research
        rw [if_pos ⟨hc, rfl⟩, hch]
        simp only [chartRun, hcp]
      rw [hrun]
      constructor
      · rcases narr_events company c.message.content gem ev with h | h
        · rw [h]
          exact (by decide :
            List.Sublist [Event.fetchResearch, Event.askModel] fullSeq)
        · rw [h]
          exact (by decide :
            List.Sublist [Event.fetchResearch, Event.askModel, Event.evalParse]
              fullSeq)
      · intro c' rest' t v h1 h2 h3 h4 h5
        injection h1 with e1 e2
        subst e1
        exact absurd ((create_premium_chart_none_iff c.message.content).mp hcp) h5
    · rcases hdoc : create_consulting_doc company now
          (get_strategic_narrative company c.message.content gem ev).2 chart
          create_system_schematic with _ | ops
      · have hrun : uiRun true company now pplx gem ev s =
            ({ openFigures := s.openFigures + 1 + 1 },
             Event.fetchResearch ::
               (get_strategic_narrative company c.message.content gem ev).1 ++
               [Event.renderChart, Event.renderSchematic],
             Option.none) := by
          unfold uiRun get_deep_research
          rw [if_pos ⟨hc, rfl⟩, hch]
          simp only [chartRun, hcp, schematicRun, hdoc]
        rw [hrun]
        constructor
        · rcases narr_events company c.message.content gem ev with h | h
          · rw [h]
            exact (by decide :
              List.Sublist [Event.fetchResearch, Event.askModel,
                Event.renderChart, Event.renderSchematic] fullSeq)
          · rw [h]
            exact (by decide :
              List.Sublist [Event.fetchResearch, Event.askModel, Event.evalParse,
                Event.renderChart, Event.renderSchematic] fullSeq)
        · intro c' rest' t v h1 h2 h3 h4 h5
          injection h1 with e1 e2
          subst e1
          have hnarr : get_strategic_narrative company c.message.content gem ev =
              ([Event.askModel, Event.evalParse], v) := by
            unfold get_strategic_narrative
            rw [h2]
            simp [h3]
          rw [hnarr] at hdoc
          have hiss := create_doc_isSome_of_sixKeys company now v chart
            create_system_schematic h4
          rw [hdoc] at hiss
          exact Bool.noConfusion hiss
      · have hrun : uiRun true company now pplx gem ev s =
            ({ openFigures := s.openFigures + 1 + 1 },
             Event.fetchResearch ::
               (get_strategic_narrative company c.message.content gem ev).1 ++
               [Event.renderChart, Event.renderSchematic, Event.populateDoc,
                Event.serializeDoc],
             some ops) := by
          unfold uiRun get_deep_research
          rw [if_pos ⟨hc, rfl⟩, hch]
          simp only [chartRun, hcp, schematicRun, hdoc]
        rw [hrun]
        constructor
        · rcases narr_events company c.message.content gem ev with h | h
          · rw [h]
            exact (by decide :
              List.Sublist [Event.fetchResearch, Event.askModel,
                Event.renderChart, Event.renderSchematic, Event.populateDoc,
                Event.serializeDoc] fullSeq)
          · rw [h]
            exact (by decide :
              List.Sublist [Event.fetchResearch, Event.askModel, Event.evalParse,
                Event.renderChart, Event.renderSchematic, Event.populateDoc,
                Event.serializeDoc] fullSeq)
        · intro c' rest' t v h1 h2 h3 h4 h5
          injection h1 with e1 e2
          subst e1
          have hnarr : get_strategic_narrative company c.message.content gem ev =
              ([Event.askModel, Event.evalParse], v) := by
            unfold get_strategic_narrative
            rw [h2]
            simp [h3]
          rw [hnarr]
          exact ⟨rfl, rfl⟩

/-- Witness for C2: with oracles that make every step succeed, the trace is
exactly the full pipeline sequence. -/
theorem run_trace_order_check :
    (uiRun true "Acme" "May 2026"
        (fun _ => { choices := [{ message := { role := "assistant", content := "beta" } }] })
        (fun _ => some "d") (fun _ => some (fallbackStrategy "Acme"))
        { openFigures := 0 }).2.1 = fullSeq :=
  ((run_trace_order true "Acme" "May 2026"
      (fun _ => { choices := [{ message := { role := "assistant", content := "beta" } }] })
      (fun _ => some "d") (fun _ => some (fallbackStrategy "Acme"))
      { openFigures := 0 } (by decide) rfl).2
    { message := { role := "assistant", content := "beta" } } [] "d"
    (fallbackStrategy "Acme") rfl rfl rfl rfl (by decide)).1

/-- Counterexample for C2: when the model replies `"42"` the parsed strategy
is the integer `42`, the `strategy['title']` read raises, and the run stops
after rendering the schematic: the trace misses the populate and serialize
steps, so the run does not execute exactly the claimed sequence. -/
theorem run_trace_truncates :
    (uiRun true "Acme" "May 2026"
        (fun _ => { choices := [{ message := { role := "assistant", content := "alpha" } }] })
        (fun _ => some "42") pyEvalIntLit { openFigures := 0 }).2.1 =
      [Event.fetchResearch, Event.askModel, Event.evalParse, Event.renderChart,
       Event.renderSchematic] ∧
    [Event.fetchResearch, Event.askModel, Event.evalParse, Event.renderChart,
       Event.renderSchematic] ≠ fullSeq ∧
    (uiRun true "Acme" "May 2026"
        (fun _ => { choices := [{ message := { role := "assistant", content := "alpha" } }] })
        (fun _ => some "42") pyEvalIntLit { openFigures := 0 }).2.2 = Option.none := by
  decide

/-- C6 (amended): the run's outputs — event trace and document buffer — do
not depend on the incoming pyplot figure registry, the document is built in
and returned as an in-memory buffer, and the script's own module bindings
are constants; but chart and schematic rendering register one matplotlib
figure each in the process-global pyplot registry and never close them, so a
run either leaves the registry unchanged (guard false or an early abort) or
grows it by exactly two figures — two successive runs therefore do not start
from the same process state.  (The claim's "no operation mutates
module-level data / runs start from the same state" fails — see the
counterexample.) -/
theorem run_state_effect :
    ∀ (pressed : Bool) (company now : String) (pplx : PplxRequest → PplxResponse)
      (gem : String → Option String) (ev : String → Option PyValue) (s sB : RunState),
      (uiRun pressed company now pplx gem ev s).2 =
        (uiRun pressed company now pplx gem ev sB).2 ∧
      ((uiRun pressed company now pplx gem ev s).1 = s ∨
       (uiRun pressed company now pplx gem ev s).1.openFigures =
         s.openFigures + 2) := by
  intro pressed company now pplx gem ev s sB
  by_cases hif : company ≠ "" ∧ pressed = true
  · rcases hch : (get_deep_research company pplx).2 with _ | research
    · have hA : uiRun pressed company now pplx gem ev s =
          (s, [Event.fetchResearch], Option.none) := by
        unfold uiRun
        rw [if_pos hif, hch]
      have hB : uiRun pressed company now pplx gem ev sB =
          (sB, [Event.fetchResearch], Option.none) := by
        unfold uiRun
        rw [if_pos hif, hch]
      rw [hA, hB]
      exact ⟨rfl, Or.inl rfl⟩
    · rcases hcp : create_premium_chart research with _ | chart
      · have hA : uiRun pressed company now pplx gem ev s =
            (s, Event.fetchResearch ::
              (get_strategic_narrative company research gem ev).1, Option.none) := by
          unfold uiRun
          rw [if_pos hif, hch]
          simp only [chartRun, hcp]
        have hB : uiRun pressed company now pplx gem ev sB =
            (sB, Event.fetchResearch ::
              (get_strategic_narrative company research gem ev).1, Option.none) := by
          unfold uiRun
          rw [if_pos hif, hch]
          simp only [chartRun, hcp]
        rw [hA, hB]
        exact ⟨rfl, Or.inl rfl⟩
      · rcases hdoc : create_consulting_doc company now
            (get_strategic_narrative company research gem ev).2 chart
            create_system_schematic with _ | ops
        · have hA : uiRun pressed company now pplx gem ev s =
              ({ openFigures := s.openFigures + 1 + 1 },
               Event.fetchResearch ::
                 (get_strategic_narrative company research gem ev).1 ++
                 [Event.renderChart, Event.renderSchematic], Option.none) := by
            unfold uiRun
            rw [if_pos hif, hch]
            simp only [chartRun, hcp, schematicRun, hdoc]
          have hB : uiRun pressed company now pplx gem ev sB =
              ({ openFigures := sB.openFigures + 1 + 1 },
               Event.fetchResearch ::
                 (get_strategic_narrative company research gem ev).1 ++
                 [Event.renderChart, Event.renderSchematic], Option.none) := by
            unfold uiRun
            rw [if_pos hif, hch]
            simp only [chartRun, hcp, schematicRun, hdoc]
          rw [hA, hB]
          exact ⟨rfl, Or.inr rfl⟩
        · have hA : uiRun pressed company now pplx gem ev s =
              ({ openFigures := s.openFigures + 1 + 1 },
               Event.fetchResearch ::
                 (get_strategic_narrative company research gem ev).1 ++
                 [Event.renderChart, Event.renderSchematic, Event.populateDoc,
                  Event.serializeDoc], some ops) := by
            unfold uiRun
            rw [if_pos hif, hch]
            simp only [chartRun, hcp, schematicRun, hdoc]
          have hB : uiRun pressed company now pplx gem ev sB =
              ({ openFigures := sB.openFigures + 1 + 1 },
               Event.fetchResearch ::
                 (get_strategic_narrative company research gem ev).1 ++
                 [Event.renderChart, Event.renderSchematic, Event.populateDoc,
                  Event.serializeDoc], some ops) := by
            unfold uiRun
            rw [if_pos hif, hch]
            simp only [chartRun, hcp, schematicRun, hdoc]
          rw [hA, hB]
          exact ⟨rfl, Or.inr rfl⟩
  · have hA : uiRun pressed company now pplx gem ev s = (s, [], Option.none) := by
      unfold uiRun
      rw [if_neg hif]
    have hB : uiRun pressed company now pplx gem ev sB = (sB, [], Option.none) := by
      unfold uiRun
      rw [if_neg hif]
    rw [hA, hB]
    exact ⟨rfl, Or.inl rfl⟩

/-- Counterexample for C6: a successful run started with an empty pyplot
registry ends with two open figures — the run mutates state that survives
it, so a second identical run does not start from the same process state. -/
theorem run_state_mutation :
    (uiRun true "Acme" "May 2026"
        (fun _ => { choices := [{ message := { role := "assistant", content := "alpha" } }] })
        (fun _ => Option.none) pyEvalIntLit { openFigures := 0 }).1 =
      { openFigures := 2 } ∧
    ({ openFigures := 2 } : RunState) ≠ { openFigures := 0 } := by
  decide
